import Mathlib

/-!
Verification of the pixel-buffer engine of `utils/pixel_buffer.py`.

A pixel buffer is modelled as a structure holding a shape
`(height, width, channels)` together with a total indexing function;
entries outside the shape are irrelevant junk, and every statement
quantifies only over in-bounds indices.  Python floats are modelled as
real numbers.  NumPy basic-slice semantics (negative endpoints counting
from the end of the axis, clamping at the axis bounds) and the
broadcasting rule for slice assignment (a source axis of extent 1 is
repeated; otherwise the extents must agree, or the assignment fails with
a ValueError) are modelled explicitly, since the paste routine relies on
them.  Exceptions are modelled with `Except`; a raised error leaves the
target untouched, which matches the source because the single slice
assignment there is the only mutation and NumPy validates it before
writing.
-/

namespace PixelBuf

/-- A pixel buffer: an ndarray of shape `(height, width, channels)`.
`data y x c` is the element at row `y`, column `x`, channel `c`. -/
structure Buffer (α : Type) where
  height : Nat
  width : Nat
  channels : Nat
  data : Nat → Nat → Nat → α

/-- The view `b[::-1, :, :]` with the y axis flipped, used by the paste
routine because box coordinates put `(0, 0)` at the top left while the
stored buffer has `(0, 0)` at the bottom left. -/
def flipY {α : Type} (b : Buffer α) : Buffer α :=
  { b with data := fun y x c => b.data (b.height - 1 - y) x c }

/-- Resolution of a NumPy basic-slice endpoint `i` on an axis of length
`n`: a negative endpoint counts from the end of the axis (clamped below
at 0), a non-negative endpoint is clamped above at `n`. -/
def npIndex (n : Nat) (i : Int) : Nat :=
  if i < 0 then (i + n).toNat else min i.toNat n

/-- The kinds of value accepted by `pixel_buffer_paste` as its
`source_buffer_or_pixel` argument: a 3-dimensional ndarray, a
1-dimensional ndarray, or a plain tuple or list. -/
inductive PasteSource (α : Type) where
  | ndarray3 (b : Buffer α)
  | ndarray1 (xs : List α)
  | seq (xs : List α)

/-- Errors raised by `pixel_buffer_paste`.  The first four model the
explicit `TypeError`s of the source; `broadcastMismatch` models the
`ValueError` NumPy raises when the shapes of a slice assignment are not
broadcast-compatible. -/
inductive PasteError where
  | malformedSource
  | missingBox
  | malformedCornerOrBox
  | channelOverflow
  | broadcastMismatch
  deriving DecidableEq

/-- The local helper `fit_box` of `pixel_buffer_paste`: clamp a box to
the target, with the upper bounds `width + 1` and `height + 1` exactly
as written in the source. -/
def fit_box (tH tW : Nat) (left upper right lower : Int) : Int × Int × Int × Int :=
  (max left 0, max upper 0, min right ((tW : Int) + 1), min lower ((tH : Int) + 1))

/-- NumPy slice assignment `t[fu:flo, fl:fr, :n] = xs` for a
1-dimensional color `xs` of length `n`, on the (already flipped) target
view, including the broadcast-compatibility check of the last axis. -/
def assignColor {α : Type} [Inhabited α] (t : Buffer α) (fl fu fr flo : Int) (xs : List α) :
    Except PasteError (Buffer α) :=
  let ty0 := npIndex t.height fu
  let ty1 := npIndex t.height flo
  let tx0 := npIndex t.width fl
  let tx1 := npIndex t.width fr
  let n := xs.length
  let tc1 := npIndex t.channels (n : Int)
  let newdata : Nat → Nat → Nat → α := fun y x c =>
    if ty0 ≤ y ∧ y < ty1 ∧ tx0 ≤ x ∧ x < tx1 ∧ c < tc1 then
      xs.getD (if n = 1 then 0 else c) default
    else t.data y x c
  if n = tc1 ∨ n = 1 then
    .ok { t with data := newdata }
  else .error .broadcastMismatch

/-- NumPy slice assignment
`t[fu:flo, fl:fr, :s.channels] = s[su:slo, sl:sr]` on the (already
flipped) views, including broadcasting: on each axis the source extent
must equal the target extent or be 1 (in which case it is repeated). -/
def assignImage {α : Type} (t s : Buffer α) (fl fu fr flo sl su sr slo : Int) :
    Except PasteError (Buffer α) :=
  let ty0 := npIndex t.height fu
  let ty1 := npIndex t.height flo
  let tx0 := npIndex t.width fl
  let tx1 := npIndex t.width fr
  let tc1 := npIndex t.channels (s.channels : Int)
  let sy0 := npIndex s.height su
  let sy1 := npIndex s.height slo
  let sx0 := npIndex s.width sl
  let sx1 := npIndex s.width sr
  let th := ty1 - ty0
  let tw := tx1 - tx0
  let sh := sy1 - sy0
  let sw := sx1 - sx0
  let newdata : Nat → Nat → Nat → α := fun y x c =>
    if ty0 ≤ y ∧ y < ty1 ∧ tx0 ≤ x ∧ x < tx1 ∧ c < tc1 then
      s.data (sy0 + (if sh = 1 then 0 else y - ty0))
             (sx0 + (if sw = 1 then 0 else x - tx0))
             (if s.channels = 1 then 0 else c)
    else t.data y x c
  if (sh = th ∨ sh = 1) ∧ (sw = tw ∨ sw = 1) ∧ (s.channels = tc1 ∨ s.channels = 1) then
    .ok { t with data := newdata }
  else .error .broadcastMismatch

/-- Solid-color branch of `pixel_buffer_paste` (after source-kind
resolution): a 4-element box is required, it is fitted with `fit_box`,
and the color is written into the fitted region. -/
def pasteColor {α : Type} [Inhabited α] (target : Buffer α) (xs : List α)
    (corner_or_box : List Int) : Except PasteError (Buffer α) :=
  match corner_or_box with
  | [left, upper, right, lower] =>
      match fit_box target.height target.width left upper right lower with
      | (fl, fu, fr, flo) => (assignColor target fl fu fr flo xs).map flipY
  | _ => .error .missingBox

/-- Sub-image branch of `pixel_buffer_paste`: flip the source, resolve a
2-element corner into a box (or take a 4-element box as given), check
the channel counts, fit the box, derive the matching source
sub-rectangle by offsetting each edge by the amount the box edge moved,
and perform the slice assignment. -/
def pasteImage {α : Type} (target : Buffer α) (sb : Buffer α) (corner_or_box : List Int) :
    Except PasteError (Buffer α) :=
  let source := flipY sb
  let boxOrErr : Except PasteError (Int × Int × Int × Int) :=
    match corner_or_box with
    | [left, upper] => .ok (left, upper, left + source.width, upper + source.height)
    | [left, upper, right, lower] => .ok (left, upper, right, lower)
    | _ => .error .malformedCornerOrBox
  match boxOrErr with
  | .error e => .error e
  | .ok (left, upper, right, lower) =>
      if source.channels ≤ target.channels then
        match fit_box target.height target.width left upper right lower with
        | (fl, fu, fr, flo) =>
            (assignImage target source fl fu fr flo
              (fl - left) (fu - upper)
              ((source.width : Int) - right + fr) ((source.height : Int) - lower + flo)).map flipY
      else .error .channelOverflow

/-- The paste routine `pixel_buffer_paste(target_buffer,
source_buffer_or_pixel, corner_or_box)`.  The target (and a 3D source)
is viewed with the y axis flipped for the duration of the operation.
Source-kind resolution follows lines 274-288 of the source; note that
for a 1-dimensional ndarray the code compares the target's channel
count against `source_dimensions` (which is 1), not against the length
of the array, so that check is `1 ≤ target.channels`. -/
def pixel_buffer_paste {α : Type} [Inhabited α] (target_buffer : Buffer α)
    (source_buffer_or_pixel : PasteSource α) (corner_or_box : List Int) :
    Except PasteError (Buffer α) :=
  let target := flipY target_buffer
  match source_buffer_or_pixel with
  | .ndarray3 sb => pasteImage target sb corner_or_box
  | .ndarray1 xs =>
      if 1 ≤ target.channels then pasteColor target xs corner_or_box
      else .error .malformedSource
  | .seq xs =>
      if xs.length ≤ target.channels then pasteColor target xs corner_or_box
      else .error .malformedSource

/-- The set `linear_colorspaces` of the source: colorspace tags treated
as linear. -/
def linear_colorspaces : List String := ["Linear", "Non-Color", "Raw"]

/-- Per-component linear to sRGB transfer exactly as implemented in
`buffer_convert_linear_to_srgb`: components below the threshold follow
the mask assignment `np.where(small_rgb < 0.0, 0, small_rgb * 12.92)`,
the remaining components get the power formula. -/
noncomputable def linear_to_srgb_component (c : ℝ) : ℝ :=
  if c < 0.0031308 then (if c < 0 then 0 else c * 12.92)
  else 1.055 * c ^ ((1 : ℝ) / 2.4) - 0.055

/-- Per-component sRGB to linear transfer exactly as implemented in
`buffer_convert_srgb_to_linear`. -/
noncomputable def srgb_to_linear_component (c : ℝ) : ℝ :=
  if c < 0.04045 then (if c < 0 then 0 else c / 12.92)
  else ((c + 0.055) / 1.055) ^ (2.4 : ℝ)

/-- In-place conversion `buffer_convert_linear_to_srgb`: the view
`buffer[:, :, :3]` covers the first `min 3 channels` channels of every
pixel, and each of its components is rewritten by the transfer
function; all other channels are untouched. -/
noncomputable def buffer_convert_linear_to_srgb (b : Buffer ℝ) : Buffer ℝ :=
  { b with data := fun y x c =>
      if c < min 3 b.channels then linear_to_srgb_component (b.data y x c)
      else b.data y x c }

/-- In-place conversion `buffer_convert_srgb_to_linear` over the RGB
view `buffer[:, :, :3]`. -/
noncomputable def buffer_convert_srgb_to_linear (b : Buffer ℝ) : Buffer ℝ :=
  { b with data := fun y x c =>
      if c < min 3 b.channels then srgb_to_linear_component (b.data y x c)
      else b.data y x c }

/-- A host image: size, channel count, declared colorspace tag and the
raw (flat, bottom-left-origin) pixel data. -/
structure Image (α : Type) where
  width : Nat
  height : Nat
  channels : Nat
  colorspace : String
  pixels : List α

/-- Reading the raw pixels of an image into a buffer of shape
`(height, width, channels)`, as `get_pixel_buffer` does via
`__get_buffer_internal` followed by the reshape. -/
def image_to_buffer {α : Type} [Inhabited α] (img : Image α) : Buffer α :=
  { height := img.height, width := img.width, channels := img.channels,
    data := fun y x c => img.pixels.getD ((y * img.width + x) * img.channels + c) default }

/-- Errors raised by `get_pixel_buffer` (both are `TypeError`s in the
source, with distinct messages). -/
inductive ColorspaceError where
  | unsupportedImage
  | unsupportedAtlas
  deriving DecidableEq

/-- The acquisition routine `get_pixel_buffer(img, atlas_colorspace)`.
The inner if-chain of the linear-atlas branch has no final `else` in
the source, so an image whose colorspace tag is neither linear nor sRGB
falls off the end of the function body there; the Python function then
implicitly returns `None`, which is modelled as `.ok none`. -/
noncomputable def get_pixel_buffer (img : Image ℝ) (atlas_colorspace : String) :
    Except ColorspaceError (Option (Buffer ℝ)) :=
  let buffer := image_to_buffer img
  let img_color_space := img.colorspace
  if atlas_colorspace = "sRGB" then
    if img_color_space = "sRGB" then .ok (some buffer)
    else if img_color_space ∈ linear_colorspaces then
      .ok (some (buffer_convert_linear_to_srgb buffer))
    else .error .unsupportedImage
  else if atlas_colorspace ∈ linear_colorspaces then
    if img_color_space ∈ linear_colorspaces then .ok (some buffer)
    else if img_color_space = "sRGB" then
      .ok (some (buffer_convert_srgb_to_linear buffer))
    else .ok none
  else .error .unsupportedAtlas

/-- Modelled from the spec: `img.copy()` followed by `copy.scale(w, h)`
are host capabilities (the Blender image API), not part of the sources
under verification.  Per the spec the copy has the given size and the
original's channel count and colorspace tag; the resampled pixel
content is not specified and is modelled here by keeping the original
pixel list (no claim below depends on the content). -/
def scaled_copy (img : Image ℝ) (w h : Nat) : Image ℝ :=
  { width := w, height := h, channels := img.channels,
    colorspace := img.colorspace, pixels := img.pixels }

/-- The resize variant `get_resized_pixel_buffer(img, size)`, together
with a boolean recording whether `bpy.data.images.remove(copy)` ran
before the operation returned.  The source has no try/finally, so when
`get_pixel_buffer` raises, the exception propagates before the remove
line is reached and the flag is `false`. -/
noncomputable def get_resized_pixel_buffer (img : Image ℝ) (size : Nat × Nat) :
    Except ColorspaceError (Option (Buffer ℝ)) × Bool :=
  let copy := scaled_copy img size.1 size.2
  match get_pixel_buffer copy "sRGB" with
  | .error e => (.error e, false)
  | .ok b => (.ok b, true)

/-- Row-major flattening of a buffer, as `buffer.ravel()` produces for
the write-back. -/
def buffer_flatten {α : Type} (b : Buffer α) : List α :=
  (List.range b.height).flatMap fun y =>
    (List.range b.width).flatMap fun x =>
      (List.range b.channels).map fun c => b.data y x c

/-- The error raised by `write_pixel_buffer` (a `RuntimeError` in the
source). -/
inductive WriteError where
  | shapeMismatch
  deriving DecidableEq

/-- The persistence routine `write_pixel_buffer(img, buffer)`: the
buffer shape must equal `(height, width, channels)` of the image
exactly, and then the flattened buffer becomes the image's raw
pixels. -/
def write_pixel_buffer {α : Type} (img : Image α) (buffer : Buffer α) :
    Except WriteError (Image α) :=
  let image_shape := (img.height, img.width, img.channels)
  if (buffer.height, buffer.width, buffer.channels) = image_shape then
    .ok { img with pixels := buffer_flatten buffer }
  else .error .shapeMismatch

/-- The 10 by 10, 4-channel zero target of the partial-overlap example
in section 8 of the spec. -/
def exTarget10 : Buffer Int := ⟨10, 10, 4, fun _ _ _ => 0⟩

/-- The 4 by 4, 3-channel source of the partial-overlap example. -/
def exSource4 : Buffer Int := ⟨4, 4, 3, fun _ _ _ => 1⟩

/-- A 2 by 2 single-channel zero target. -/
def exTarget2 : Buffer Int := ⟨2, 2, 1, fun _ _ _ => 0⟩

/-- A 1 by 1, 3-channel zero target. -/
def exTarget3ch : Buffer Int := ⟨1, 1, 3, fun _ _ _ => 0⟩

/-- A 4 by 4, 2-channel zero target used by witnesses. -/
def exTarget4 : Buffer Int := ⟨4, 4, 2, fun _ _ _ => 0⟩

/-- A 2 by 2 single-channel source whose entries encode their (row,
column) coordinates. -/
def exSource2 : Buffer Int := ⟨2, 2, 1, fun y x _ => 10 * y + x + 1⟩

/-- A 1 by 1 single-channel image with the unsupported colorspace tag
XYZ. -/
noncomputable def exImageXYZ : Image ℝ := ⟨1, 1, 1, "XYZ", [0]⟩

/-- A constant half-gray 1 by 1 RGB buffer. -/
noncomputable def exHalfGray : Buffer ℝ := ⟨1, 1, 3, fun _ _ _ => 1 / 2⟩

/-- A constant 1 by 1 RGBA buffer. -/
noncomputable def exRgba : Buffer ℝ := ⟨1, 1, 4, fun _ _ _ => 1 / 2⟩

/-- A 1 by 2 single-channel image for the write-back witness. -/
def exImgW : Image Int := ⟨2, 1, 1, "sRGB", [3, 4]⟩

/-- A buffer of shape (1, 2, 1) matching `exImgW`. -/
def exBufW : Buffer Int := ⟨1, 2, 1, fun _ x _ => (x : Int) + 3⟩

end PixelBuf

namespace PixelBuf

@[simp] theorem flipY_height {α : Type} (b : Buffer α) : (flipY b).height = b.height := rfl

@[simp] theorem flipY_width {α : Type} (b : Buffer α) : (flipY b).width = b.width := rfl

@[simp] theorem flipY_channels {α : Type} (b : Buffer α) : (flipY b).channels = b.channels := rfl

theorem flipY_data {α : Type} (b : Buffer α) (y x c : Nat) :
    (flipY b).data y x c = b.data (b.height - 1 - y) x c := rfl

theorem flipY_flipY_data {α : Type} (b : Buffer α) (y x c : Nat) (hy : y < b.height) :
    (flipY (flipY b)).data y x c = b.data y x c := by
  simp only [flipY]
  congr 1
  omega

theorem npIndex_of_nonneg {n : Nat} {i : Int} (h0 : 0 ≤ i) (h : i ≤ n) :
    npIndex n i = i.toNat := by
  unfold npIndex
  rw [if_neg (by omega)]
  omega

/-- C8: `write_pixel_buffer` fails with the shape-mismatch error exactly
when the buffer shape differs from `(image.height, image.width,
image.channels)`, performing no write in that case, and otherwise
succeeds, writing the flattened buffer as the image's raw pixels. -/
theorem C8_write_shape_contract {α : Type} (img : Image α) (buffer : Buffer α) :
    (write_pixel_buffer img buffer = .error .shapeMismatch ↔
      (buffer.height, buffer.width, buffer.channels) ≠ (img.height, img.width, img.channels)) ∧
    ((buffer.height, buffer.width, buffer.channels) = (img.height, img.width, img.channels) →
      write_pixel_buffer img buffer = .ok { img with pixels := buffer_flatten buffer }) := by
  by_cases h : (buffer.height, buffer.width, buffer.channels) = (img.height, img.width, img.channels)
  · refine ⟨by simp [write_pixel_buffer, h], fun _ => by simp [write_pixel_buffer, h]⟩
  · refine ⟨by simp [write_pixel_buffer, h], fun hh => absurd hh h⟩

/-- Witness for C8 at a concrete matching image and buffer. -/
theorem C8_write_shape_contract_witness :
    write_pixel_buffer exImgW exBufW = .ok { exImgW with pixels := buffer_flatten exBufW } :=
  (C8_write_shape_contract exImgW exBufW).2 (by decide)

/-- C4, failing input: with a linear atlas colorspace and an image whose
colorspace tag is unsupported, `get_pixel_buffer` returns the implicit
Python `None` instead of raising; the claimed error is only raised when
the atlas colorspace is sRGB. -/
theorem C4_linear_atlas_fallthrough :
    get_pixel_buffer exImageXYZ "Linear" = .ok none ∧
    get_pixel_buffer exImageXYZ "sRGB" = .error .unsupportedImage := by
  constructor <;> rfl

/-- C6, failing input: when the colorspace conversion inside acquisition
raises, `get_resized_pixel_buffer` propagates the exception without ever
reaching the line that removes the temporary scaled copy, so the copy is
not deleted (flag `false`). -/
theorem C6_copy_leaked_on_error :
    get_resized_pixel_buffer exImageXYZ (2, 2) = (.error .unsupportedImage, false) := by
  rfl

/-- C5, failing input: a 1-dimensional ndarray source of length 5 pasted
into a 3-channel target is accepted as a solid-color paste (the source
compares the channel count with `source_dimensions`, which is 1, instead
of the length) and only fails later with NumPy's broadcast ValueError,
while the same color given as a plain sequence is rejected up front as a
malformed source. -/
theorem C5_ndarray1_length_unchecked :
    pixel_buffer_paste exTarget3ch (.ndarray1 ([1, 2, 3, 4, 5] : List Int)) [0, 0, 1, 1] =
      .error .broadcastMismatch ∧
    pixel_buffer_paste exTarget3ch (.seq ([1, 2, 3, 4, 5] : List Int)) [0, 0, 1, 1] =
      .error .malformedSource := by
  constructor <;> rfl

/-- C1, counterexample: pasting the 4 by 4 source at corner (8, 8) of
the 10 by 10 target (the spec's own partial-overlap example) raises
NumPy's broadcast ValueError instead of copying the overlapping
sub-rectangle, because `fit_box` clips the box only to `width + 1` and
`height + 1`, leaving a 3-wide source slice against a 2-wide target
slice. -/
theorem C1_counterexample :
    pixel_buffer_paste exTarget10 (.ndarray3 exSource4) [8, 8] = .error .broadcastMismatch := by
  rfl

/-- C2, counterexample: a box whose lower edge is negative is not an
empty region after fitting; NumPy interprets the negative slice endpoint
as counting from the end of the axis, so the paste of color 5 with box
(0, 0, 1, -1) into a 2 by 2 zero target writes one pixel that the claim
says must stay unchanged. -/
theorem C2_counterexample :
    (pixel_buffer_paste exTarget2 (.seq ([5] : List Int)) [0, 0, 1, -1]).map
        (fun b => b.data 1 0 0) = .ok 5 ∧
    exTarget2.data 1 0 0 = 0 := by
  constructor <;> rfl

/-- C7: a sub-image paste whose 3-dimensional source has more channels
than the target fails with the channel-overflow error (and the target,
which the model only rebuilds on success, is untouched). -/
theorem C7_channel_overflow {α : Type} [Inhabited α] (t s : Buffer α) (cb : List Int)
    (hcb : cb.length = 2 ∨ cb.length = 4) (hch : t.channels < s.channels) :
    pixel_buffer_paste t (.ndarray3 s) cb = .error .channelOverflow := by
  have hne : ¬ ((flipY s).channels ≤ (flipY t).channels) := by
    simp only [flipY_channels]
    omega
  rcases cb with _ | ⟨a, _ | ⟨b, _ | ⟨c, _ | ⟨d, _ | rest⟩⟩⟩⟩
  · simp at hcb
  · simp at hcb
  · simp only [pixel_buffer_paste, pasteImage]
    rw [if_neg hne]
  · simp at hcb
  · simp only [pixel_buffer_paste, pasteImage]
    rw [if_neg hne]
  · simp at hcb

/-- Witness for C7: a 3-channel source cannot be pasted into the
single-channel 2 by 2 target. -/
theorem C7_channel_overflow_witness :
    pixel_buffer_paste exTarget2 (.ndarray3 ⟨2, 2, 3, fun _ _ _ => (7 : Int)⟩) [0, 0] =
      .error .channelOverflow :=
  C7_channel_overflow exTarget2 ⟨2, 2, 3, fun _ _ _ => (7 : Int)⟩ [0, 0] (Or.inl rfl) (by decide)

/-- C3: on every RGB component (a channel of the `buffer[:, :, :3]`
view), the linear-to-sRGB conversion computes `max(c, 0) * 12.92` below
the threshold 0.0031308 and `1.055 * c^(1/2.4) - 0.055` otherwise, and
the sRGB-to-linear conversion computes `max(c, 0) / 12.92` below 0.04045
and `((c + 0.055) / 1.055)^2.4` otherwise; the clamp at zero exists only
in the small branch. -/
theorem C3_transfer_formulas (b : Buffer ℝ) (y x c : Nat) (hc : c < min 3 b.channels) :
    (buffer_convert_linear_to_srgb b).data y x c =
      (if b.data y x c < 0.0031308 then max (b.data y x c) 0 * 12.92
       else 1.055 * b.data y x c ^ ((1 : ℝ) / 2.4) - 0.055) ∧
    (buffer_convert_srgb_to_linear b).data y x c =
      (if b.data y x c < 0.04045 then max (b.data y x c) 0 / 12.92
       else ((b.data y x c + 0.055) / 1.055) ^ (2.4 : ℝ)) := by
  constructor
  · simp only [buffer_convert_linear_to_srgb, linear_to_srgb_component, if_pos hc]
    by_cases h : b.data y x c < 0.0031308
    · rw [if_pos h, if_pos h]
      by_cases h0 : b.data y x c < 0
      · rw [if_pos h0, max_eq_right h0.le, zero_mul]
      · rw [if_neg h0, max_eq_left (not_lt.mp h0)]
    · rw [if_neg h, if_neg h]
  · simp only [buffer_convert_srgb_to_linear, srgb_to_linear_component, if_pos hc]
    by_cases h : b.data y x c < 0.04045
    · rw [if_pos h, if_pos h]
      by_cases h0 : b.data y x c < 0
      · rw [if_pos h0, max_eq_right h0.le, zero_div]
      · rw [if_neg h0, max_eq_left (not_lt.mp h0)]
    · rw [if_neg h, if_neg h]

/-- Witness for C3 on the half-gray buffer: one half is above both
thresholds, so both conversions take the power branch. -/
theorem C3_transfer_formulas_witness :
    (buffer_convert_linear_to_srgb exHalfGray).data 0 0 0 =
      1.055 * (1 / 2 : ℝ) ^ ((1 : ℝ) / 2.4) - 0.055 ∧
    (buffer_convert_srgb_to_linear exHalfGray).data 0 0 0 =
      ((1 / 2 + 0.055) / 1.055 : ℝ) ^ (2.4 : ℝ) := by
  have h := C3_transfer_formulas exHalfGray 0 0 0 (by norm_num [exHalfGray])
  have hd : exHalfGray.data 0 0 0 = (1 / 2 : ℝ) := rfl
  rw [hd] at h
  rcases h with ⟨h1, h2⟩
  rw [if_neg (by norm_num)] at h1
  rw [if_neg (by norm_num)] at h2
  exact ⟨h1, h2⟩

/-- C10: on a 4-channel buffer neither conversion direction changes any
value in a channel with index at least 3, in particular the fourth
(alpha) channel; only the first three channels are ever rewritten. -/
theorem C10_alpha_untouched (b : Buffer ℝ) (hch : b.channels = 4) (y x c : Nat)
    (hc : 3 ≤ c) :
    (buffer_convert_linear_to_srgb b).data y x c = b.data y x c ∧
    (buffer_convert_srgb_to_linear b).data y x c = b.data y x c := by
  have hlt : ¬ c < min 3 b.channels := by
    rw [hch]
    omega
  constructor
  · simp only [buffer_convert_linear_to_srgb, if_neg hlt]
  · simp only [buffer_convert_srgb_to_linear, if_neg hlt]

/-- Witness for C10 at the constant RGBA buffer's alpha channel. -/
theorem C10_alpha_untouched_witness :
    (buffer_convert_linear_to_srgb exRgba).data 0 0 3 = exRgba.data 0 0 3 ∧
    (buffer_convert_srgb_to_linear exRgba).data 0 0 3 = exRgba.data 0 0 3 :=
  C10_alpha_untouched exRgba rfl 0 0 3 (by decide)

/-- C2, amended: for a 1-to-4-component color no longer than the
target's channel count and a 4-element box whose right and lower edges
are non-negative, the paste clips the box with the fit rule, writes the
color into the first `len(color)` channels of every pixel of the clipped
rectangle.and leaves deeper channels and all pixels outside the clipped
rectangle unchanged; a 2-element corner is rejected with the
missing-box error.  (The non-negativity of `right` and `lower` is what
the counterexample forces: negative fitted endpoints wrap around the
axis in NumPy and overwrite pixels outside the claimed region.) -/
theorem C2_amended {α : Type} [Inhabited α] (t : Buffer α) (xs : List α) (l u r lo : Int)
    (hn1 : 1 ≤ xs.length) (hn4 : xs.length ≤ 4) (hnc : xs.length ≤ t.channels)
    (hr : 0 ≤ r) (hlo : 0 ≤ lo) :
    (∃ res, pixel_buffer_paste t (.seq xs) [l, u, r, lo] = .ok res ∧
      res.height = t.height ∧ res.width = t.width ∧ res.channels = t.channels ∧
      ∀ y x c, y < t.height → x < t.width → c < t.channels →
        (flipY res).data y x c =
          if max l 0 ≤ (x : Int) ∧ (x : Int) < min r ((t.width : Int) + 1) ∧
             max u 0 ≤ (y : Int) ∧ (y : Int) < min lo ((t.height : Int) + 1) ∧
             c < xs.length then
            xs.getD c default
          else (flipY t).data y x c) ∧
    (∀ l2 u2 : Int, pixel_buffer_paste t (.seq xs) [l2, u2] = .error .missingBox) := by
  have htc : npIndex t.channels ((xs.length : Nat) : Int) = xs.length := by
    unfold npIndex
    rw [if_neg (by omega)]
    omega
  constructor
  · have key : pixel_buffer_paste t (.seq xs) [l, u, r, lo] =
        .ok (flipY { flipY t with data := fun y x c =>
          if (npIndex t.height (max u 0) ≤ y ∧
              y < npIndex t.height (min lo ((t.height : Int) + 1)) ∧
              npIndex t.width (max l 0) ≤ x ∧
              x < npIndex t.width (min r ((t.width : Int) + 1)) ∧
              c < npIndex t.channels ((xs.length : Nat) : Int)) then
            (xs.getD (if xs.length = 1 then 0 else c) default)
          else ((flipY t).data y x c) }) := by
      simp only [pixel_buffer_paste, pasteColor, fit_box, assignColor, flipY_height,
        flipY_width, flipY_channels]
      rw [if_pos hnc, if_pos (Or.inl htc.symm)]
      simp only [Except.map]
    refine ⟨_, key, rfl, rfl, rfl, ?_⟩
    intro y x c hy hx hc
    rw [flipY_flipY_data _ _ _ _ (by simpa using hy)]
    dsimp only
    have ety0 : npIndex t.height (max u 0) = min (max u 0).toNat t.height := by
      unfold npIndex
      rw [if_neg (by omega)]
    have ety1 : npIndex t.height (min lo ((t.height : Int) + 1)) =
        min (min lo ((t.height : Int) + 1)).toNat t.height := by
      unfold npIndex
      rw [if_neg (by omega)]
    have etx0 : npIndex t.width (max l 0) = min (max l 0).toNat t.width := by
      unfold npIndex
      rw [if_neg (by omega)]
    have etx1 : npIndex t.width (min r ((t.width : Int) + 1)) =
        min (min r ((t.width : Int) + 1)).toNat t.width := by
      unfold npIndex
      rw [if_neg (by omega)]
    have hcond_iff : (npIndex t.height (max u 0) ≤ y ∧
        y < npIndex t.height (min lo ((t.height : Int) + 1)) ∧
        npIndex t.width (max l 0) ≤ x ∧
        x < npIndex t.width (min r ((t.width : Int) + 1)) ∧
        c < npIndex t.channels ((xs.length : Nat) : Int)) ↔
        (max l 0 ≤ (x : Int) ∧ (x : Int) < min r ((t.width : Int) + 1) ∧
         max u 0 ≤ (y : Int) ∧ (y : Int) < min lo ((t.height : Int) + 1) ∧
         c < xs.length) := by
      rw [ety0, ety1, etx0, etx1, htc]
      omega
    by_cases hcond : max l 0 ≤ (x : Int) ∧ (x : Int) < min r ((t.width : Int) + 1) ∧
        max u 0 ≤ (y : Int) ∧ (y : Int) < min lo ((t.height : Int) + 1) ∧ c < xs.length
    · rw [if_pos (hcond_iff.mpr hcond), if_pos hcond]
      have hcn : c < xs.length := hcond.2.2.2.2
      have hgd : (if xs.length = 1 then 0 else c) = c := by
        split_ifs with h1
        · omega
        · rfl
      rw [hgd]
    · rw [if_neg (fun hh => hcond (hcond_iff.mp hh)), if_neg hcond]
  · intro l2 u2
    simp only [pixel_buffer_paste, flipY_channels]
    rw [if_pos hnc]
    rfl

/-- Witness for C2 with the color 9 filling the 2 by 2 top-left box of
the 4 by 4 two-channel target. -/
theorem C2_amended_witness :
    (∃ res, pixel_buffer_paste exTarget4 (.seq ([9] : List Int)) [0, 0, 2, 2] = .ok res ∧
      res.height = exTarget4.height ∧ res.width = exTarget4.width ∧
      res.channels = exTarget4.channels ∧
      ∀ y x c, y < exTarget4.height → x < exTarget4.width → c < exTarget4.channels →
        (flipY res).data y x c =
          if max 0 0 ≤ (x : Int) ∧ (x : Int) < min 2 ((exTarget4.width : Int) + 1) ∧
             max 0 0 ≤ (y : Int) ∧ (y : Int) < min 2 ((exTarget4.height : Int) + 1) ∧
             c < ([9] : List Int).length then
            ([9] : List Int).getD c default
          else (flipY exTarget4).data y x c) ∧
    (∀ l2 u2 : Int, pixel_buffer_paste exTarget4 (.seq ([9] : List Int)) [l2, u2] =
      .error .missingBox) :=
  C2_amended exTarget4 [9] 0 0 2 2 (by decide) (by decide) (by decide) (by decide) (by decide)

/-- Helper: the successful outcome of `assignImage`, phrased over
pre-resolved slice endpoints so that the statements stay small. -/
theorem assignImage_spec {α : Type} (t s : Buffer α) (fl fu fr flo sl su sr slo : Int)
    (A B C D E F G H I : Nat)
    (hty0 : npIndex t.height fu = A) (hty1 : npIndex t.height flo = B)
    (htx0 : npIndex t.width fl = C) (htx1 : npIndex t.width fr = D)
    (htc : npIndex t.channels (s.channels : Int) = I)
    (hsy0 : npIndex s.height su = E) (hsy1 : npIndex s.height slo = F)
    (hsx0 : npIndex s.width sl = G) (hsx1 : npIndex s.width sr = H)
    (hcompat : (F - E = B - A ∨ F - E = 1) ∧ (H - G = D - C ∨ H - G = 1) ∧
      (s.channels = I ∨ s.channels = 1)) :
    assignImage t s fl fu fr flo sl su sr slo = .ok { t with data := fun y x c =>
      if (A ≤ y ∧ y < B ∧ C ≤ x ∧ x < D ∧ c < I) then
        (s.data (E + (if F - E = 1 then 0 else y - A))
                (G + (if H - G = 1 then 0 else x - C))
                (if s.channels = 1 then 0 else c))
      else (t.data y x c) } := by
  simp only [assignImage, hty0, hty1, htx0, htx1, htc, hsy0, hsy1, hsx0, hsx1]
  rw [if_pos hcompat]

set_option maxHeartbeats 1600000 in
/-- C1, amended: a sub-image paste whose resolved box has exactly the
source's width and height (always true for a corner) and whose right and
lower edges lie inside the target (0 <= right <= width and
0 <= lower <= height) copies, for every clipped-region pixel and every
source channel, the source entry offset by the clip amount, and leaves
every other element of the target unchanged.  (The bound on right and
lower is what the counterexample forces: `fit_box` clips only to
`width + 1` and `height + 1`, so a box past the right or bottom edge
produces slices of different shapes and NumPy raises instead of
copying, and a negative right or lower endpoint wraps around the
axis.) -/
theorem C1_amended {α : Type} [Inhabited α] (t s : Buffer α) (cb : List Int) (l u r lo : Int)
    (hcb : cb = [l, u] ∨ cb = [l, u, r, lo])
    (hrw : r = l + (s.width : Int)) (hloh : lo = u + (s.height : Int))
    (hch : s.channels ≤ t.channels)
    (hr0 : 0 ≤ r) (hrW : r ≤ (t.width : Int)) (hlo0 : 0 ≤ lo) (hloH : lo ≤ (t.height : Int)) :
    ∃ res, pixel_buffer_paste t (.ndarray3 s) cb = .ok res ∧
      res.height = t.height ∧ res.width = t.width ∧ res.channels = t.channels ∧
      ∀ y x c, y < t.height → x < t.width → c < t.channels →
        (flipY res).data y x c =
          if max l 0 ≤ (x : Int) ∧ (x : Int) < r ∧ max u 0 ≤ (y : Int) ∧ (y : Int) < lo ∧
             c < s.channels then
            ((flipY s).data ((y : Int) - u).toNat ((x : Int) - l).toNat c)
          else ((flipY t).data y x c) := by
  subst hrw
  subst hloh
  have eA : npIndex t.height (max u 0) = (max u 0).toNat := by
    unfold npIndex
    split_ifs <;> omega
  have eB : npIndex t.height (min (u + (s.height : Int)) ((t.height : Int) + 1)) =
      (u + (s.height : Int)).toNat := by
    unfold npIndex
    split_ifs <;> omega
  have eC : npIndex t.width (max l 0) = (max l 0).toNat := by
    unfold npIndex
    split_ifs <;> omega
  have eD : npIndex t.width (min (l + (s.width : Int)) ((t.width : Int) + 1)) =
      (l + (s.width : Int)).toNat := by
    unfold npIndex
    split_ifs <;> omega
  have eI : npIndex t.channels ((s.channels : Nat) : Int) = s.channels := by
    unfold npIndex
    split_ifs <;> omega
  have eE : npIndex s.height (max u 0 - u) = (max u 0 - u).toNat := by
    unfold npIndex
    split_ifs <;> omega
  have eF : npIndex s.height ((s.height : Int) - (u + (s.height : Int)) +
      min (u + (s.height : Int)) ((t.height : Int) + 1)) = s.height := by
    unfold npIndex
    split_ifs <;> omega
  have eG : npIndex s.width (max l 0 - l) = (max l 0 - l).toNat := by
    unfold npIndex
    split_ifs <;> omega
  have eH : npIndex s.width ((s.width : Int) - (l + (s.width : Int)) +
      min (l + (s.width : Int)) ((t.width : Int) + 1)) = s.width := by
    unfold npIndex
    split_ifs <;> omega
  have hassign := assignImage_spec (flipY t) (flipY s)
    (max l 0) (max u 0)
    (min (l + (s.width : Int)) ((t.width : Int) + 1))
    (min (u + (s.height : Int)) ((t.height : Int) + 1))
    (max l 0 - l) (max u 0 - u)
    ((s.width : Int) - (l + (s.width : Int)) + min (l + (s.width : Int)) ((t.width : Int) + 1))
    ((s.height : Int) - (u + (s.height : Int)) + min (u + (s.height : Int)) ((t.height : Int) + 1))
    (max u 0).toNat (u + (s.height : Int)).toNat
    (max l 0).toNat (l + (s.width : Int)).toNat
    (max u 0 - u).toNat s.height
    (max l 0 - l).toNat s.width
    s.channels
    eA eB eC eD eI eE eF eG eH
    ⟨Or.inl (by omega), Or.inl (by omega), Or.inl rfl⟩
  have key : pixel_buffer_paste t (.ndarray3 s)
      [l, u, l + (s.width : Int), u + (s.height : Int)] =
      (assignImage (flipY t) (flipY s)
        (max l 0) (max u 0)
        (min (l + (s.width : Int)) ((t.width : Int) + 1))
        (min (u + (s.height : Int)) ((t.height : Int) + 1))
        (max l 0 - l) (max u 0 - u)
        ((s.width : Int) - (l + (s.width : Int)) +
          min (l + (s.width : Int)) ((t.width : Int) + 1))
        ((s.height : Int) - (u + (s.height : Int)) +
          min (u + (s.height : Int)) ((t.height : Int) + 1))).map flipY := by
    simp only [pixel_buffer_paste, pasteImage, fit_box, flipY_height, flipY_width,
      flipY_channels]
    rw [if_pos hch]
  rw [hassign] at key
  have key2 : pixel_buffer_paste t (.ndarray3 s)
      [l, u, l + (s.width : Int), u + (s.height : Int)] =
      .ok (flipY { flipY t with data := fun y x c =>
        if ((max u 0).toNat ≤ y ∧ y < (u + (s.height : Int)).toNat ∧
            (max l 0).toNat ≤ x ∧ x < (l + (s.width : Int)).toNat ∧ c < s.channels) then
          ((flipY s).data
            ((max u 0 - u).toNat +
              (if s.height - (max u 0 - u).toNat = 1 then 0 else y - (max u 0).toNat))
            ((max l 0 - l).toNat +
              (if s.width - (max l 0 - l).toNat = 1 then 0 else x - (max l 0).toNat))
            (if s.channels = 1 then 0 else c))
        else ((flipY t).data y x c) }) := by
    rw [key]
    rfl
  have main : ∀ res, pixel_buffer_paste t (.ndarray3 s)
      [l, u, l + (s.width : Int), u + (s.height : Int)] = .ok res →
      res.height = t.height ∧ res.width = t.width ∧ res.channels = t.channels ∧
      ∀ y x c, y < t.height → x < t.width → c < t.channels →
        (flipY res).data y x c =
          if max l 0 ≤ (x : Int) ∧ (x : Int) < l + (s.width : Int) ∧
             max u 0 ≤ (y : Int) ∧ (y : Int) < u + (s.height : Int) ∧
             c < s.channels then
            ((flipY s).data ((y : Int) - u).toNat ((x : Int) - l).toNat c)
          else ((flipY t).data y x c) := by
    intro res hres
    rw [key2] at hres
    obtain rfl : res = _ := (Except.ok.injEq _ _).mp hres.symm
    refine ⟨rfl, rfl, rfl, ?_⟩
    intro y x c hy hx hc
    rw [flipY_flipY_data _ _ _ _ (by simpa using hy)]
    dsimp only
    have hcond_iff : ((max u 0).toNat ≤ y ∧ y < (u + (s.height : Int)).toNat ∧
        (max l 0).toNat ≤ x ∧ x < (l + (s.width : Int)).toNat ∧ c < s.channels) ↔
        (max l 0 ≤ (x : Int) ∧ (x : Int) < l + (s.width : Int) ∧
         max u 0 ≤ (y : Int) ∧ (y : Int) < u + (s.height : Int) ∧ c < s.channels) := by
      omega
    by_cases hcond : max l 0 ≤ (x : Int) ∧ (x : Int) < l + (s.width : Int) ∧
        max u 0 ≤ (y : Int) ∧ (y : Int) < u + (s.height : Int) ∧ c < s.channels
    · rw [if_pos (hcond_iff.mpr hcond), if_pos hcond]
      obtain ⟨h1, h2, h3, h4, h5⟩ := hcond
      have hrow : (max u 0 - u).toNat +
          (if s.height - (max u 0 - u).toNat = 1 then 0 else y - (max u 0).toNat) =
          ((y : Int) - u).toNat := by
        split_ifs with hh <;> omega
      have hcol : (max l 0 - l).toNat +
          (if s.width - (max l 0 - l).toNat = 1 then 0 else x - (max l 0).toNat) =
          ((x : Int) - l).toNat := by
        split_ifs with hh <;> omega
      have hchn : (if s.channels = 1 then 0 else c) = c := by
        split_ifs with hh <;> omega
      rw [hrow, hcol, hchn]
    · rw [if_neg (fun hh => hcond (hcond_iff.mp hh)), if_neg hcond]
  rcases hcb with rfl | rfl
  · exact ⟨_, key2, main _ key2⟩
  · exact ⟨_, key2, main _ key2⟩

/-- Witness for C1: the 2 by 2 coordinate source pasted at corner (1, 1)
of the 4 by 4 two-channel target. -/
theorem C1_amended_witness :
    ∃ res, pixel_buffer_paste exTarget4 (.ndarray3 exSource2) [1, 1] = .ok res ∧
      res.height = exTarget4.height ∧ res.width = exTarget4.width ∧
      res.channels = exTarget4.channels ∧
      ∀ y x c, y < exTarget4.height → x < exTarget4.width → c < exTarget4.channels →
        (flipY res).data y x c =
          if max 1 0 ≤ (x : Int) ∧ (x : Int) < 3 ∧ max 1 0 ≤ (y : Int) ∧ (y : Int) < 3 ∧
             c < exSource2.channels then
            ((flipY exSource2).data ((y : Int) - 1).toNat ((x : Int) - 1).toNat c)
          else ((flipY exTarget4).data y x c) :=
  C1_amended exTarget4 exSource2 [1, 1] 1 1 3 3 (Or.inl rfl) (by decide) (by decide)
    (by decide) (by decide) (by decide) (by decide) (by decide)

theorem ltos_channels (b : Buffer ℝ) : (buffer_convert_linear_to_srgb b).channels = b.channels := rfl

theorem stol_channels (b : Buffer ℝ) : (buffer_convert_srgb_to_linear b).channels = b.channels := rfl

theorem rpow_five_twelfths_pow12 {x : ℝ} (hx : 0 ≤ x) :
    (x ^ ((5 : ℝ) / 12)) ^ (12 : ℕ) = x ^ (5 : ℕ) := by
  rw [← Real.rpow_natCast (x ^ ((5 : ℝ) / 12)) 12, ← Real.rpow_mul hx, ← Real.rpow_natCast x 5]
  norm_num

theorem rpow_twelve_fifths_pow5 {x : ℝ} (hx : 0 ≤ x) :
    (x ^ ((12 : ℝ) / 5)) ^ (5 : ℕ) = x ^ (12 : ℕ) := by
  rw [← Real.rpow_natCast (x ^ ((12 : ℝ) / 5)) 5, ← Real.rpow_mul hx, ← Real.rpow_natCast x 12]
  norm_num

theorem rpow_five_twelfths_le {x U : ℝ} (hx : 0 ≤ x) (hU : 0 ≤ U)
    (h : x ^ (5 : ℕ) ≤ U ^ (12 : ℕ)) : x ^ ((5 : ℝ) / 12) ≤ U := by
  have h12 : (x ^ ((5 : ℝ) / 12)) ^ (12 : ℕ) ≤ U ^ (12 : ℕ) := by
    rw [rpow_five_twelfths_pow12 hx]
    exact h
  exact le_of_pow_le_pow_left₀ (by norm_num) hU h12

theorem le_rpow_five_twelfths {L x : ℝ} (hx : 0 ≤ x)
    (h : L ^ (12 : ℕ) ≤ x ^ (5 : ℕ)) : L ≤ x ^ ((5 : ℝ) / 12) := by
  have h12 : L ^ (12 : ℕ) ≤ (x ^ ((5 : ℝ) / 12)) ^ (12 : ℕ) := by
    rw [rpow_five_twelfths_pow12 hx]
    exact h
  exact le_of_pow_le_pow_left₀ (by norm_num) (Real.rpow_nonneg hx _) h12

theorem le_rpow_twelve_fifths {L x : ℝ} (hx : 0 ≤ x)
    (h : L ^ (5 : ℕ) ≤ x ^ (12 : ℕ)) : L ≤ x ^ ((12 : ℝ) / 5) := by
  have h5 : L ^ (5 : ℕ) ≤ (x ^ ((12 : ℝ) / 5)) ^ (5 : ℕ) := by
    rw [rpow_twelve_fifths_pow5 hx]
    exact h
  exact le_of_pow_le_pow_left₀ (by norm_num) (Real.rpow_nonneg hx _) h5

/-- Round trip of one RGB component in the unit interval: converting
sRGB to linear and back differs from the identity by at most `1e-5`
(the piecewise thresholds of the source constants are very slightly
inconsistent, so the round trip is not exact on a sliver just below
0.04045, but the deviation there is below `1e-6`). -/
theorem roundtrip_component (c : ℝ) (h0 : 0 ≤ c) (h1 : c ≤ 1) :
    |linear_to_srgb_component (srgb_to_linear_component c) - c| ≤ 1 / 100000 := by
  unfold srgb_to_linear_component
  by_cases hc : c < 0.04045
  · rw [if_pos hc, if_neg (not_lt.mpr h0)]
    unfold linear_to_srgb_component
    by_cases hy : c / 12.92 < 0.0031308
    · rw [if_pos hy, if_neg (not_lt.mpr (by positivity))]
      have hcc : c / 12.92 * 12.92 = c := div_mul_cancel₀ c (by norm_num)
      rw [hcc, sub_self, abs_zero]
      norm_num
    · rw [if_neg hy]
      have hya : (0.0031308 : ℝ) ≤ c / 12.92 := not_lt.mp hy
      have hyb : c / 12.92 ≤ 0.04045 / 12.92 :=
        (div_le_div_iff_of_pos_right (by norm_num)).mpr hc.le
      have hya2 : (0.0031308 : ℝ) * 12.92 ≤ c := (le_div_iff₀ (by norm_num)).mp hya
      have hyb2 : c ≤ (0.04045 : ℝ) := (div_le_div_iff_of_pos_right (by norm_num)).mp hyb
      have e124 : (1 : ℝ) / 2.4 = (5 : ℝ) / 12 := by norm_num
      have hL : (0.0904737 : ℝ) ≤ (c / 12.92) ^ ((1 : ℝ) / 2.4) := by
        rw [e124]
        refine le_trans ?_ (Real.rpow_le_rpow (by norm_num) hya (by norm_num))
        exact le_rpow_five_twelfths (by norm_num) (by norm_num)
      have hU : (c / 12.92) ^ ((1 : ℝ) / 2.4) ≤ (0.0904740 : ℝ) := by
        rw [e124]
        refine le_trans (Real.rpow_le_rpow (by positivity) hyb (by norm_num)) ?_
        exact rpow_five_twelfths_le (by norm_num) (by norm_num) (by norm_num)
      rw [abs_le]
      constructor
      · linarith [hL, hyb2]
      · linarith [hU, hya2]
  · rw [if_neg hc]
    have hcge : (0.04045 : ℝ) ≤ c := not_lt.mp hc
    have hu : (0 : ℝ) < (c + 0.055) / 1.055 := by
      have : (0 : ℝ) < c + 0.055 := by linarith
      exact div_pos this (by norm_num)
    have e24 : (2.4 : ℝ) = (12 : ℝ) / 5 := by norm_num
    unfold linear_to_srgb_component
    have hz : ¬ ((c + 0.055) / 1.055) ^ (2.4 : ℝ) < 0.0031308 := by
      rw [not_lt, e24]
      have hub : (0.09545 / 1.055 : ℝ) ≤ (c + 0.055) / 1.055 :=
        (div_le_div_iff_of_pos_right (by norm_num)).mpr (by linarith)
      refine le_trans ?_ (Real.rpow_le_rpow (by norm_num) hub (by norm_num))
      exact le_rpow_twelve_fifths (by norm_num) (by norm_num)
    rw [if_neg hz]
    have hinv : (((c + 0.055) / 1.055) ^ (2.4 : ℝ)) ^ ((1 : ℝ) / 2.4) =
        (c + 0.055) / 1.055 := by
      rw [← Real.rpow_mul hu.le, show (2.4 : ℝ) * (1 / 2.4) = 1 by norm_num, Real.rpow_one]
    rw [hinv]
    have hfin : 1.055 * ((c + 0.055) / 1.055) - 0.055 = c := by
      field_simp
    rw [hfin, sub_self, abs_zero]
    norm_num

/-- C9: for every buffer whose RGB components lie in the unit interval,
converting sRGB to linear and then linear to sRGB reproduces every
element of the buffer to within `1e-5` (non-RGB channels are reproduced
exactly). -/
theorem C9_roundtrip (b : Buffer ℝ)
    (hb : ∀ y x c, y < b.height → x < b.width → c < min 3 b.channels →
      0 ≤ b.data y x c ∧ b.data y x c ≤ 1) :
    ∀ y x c, y < b.height → x < b.width → c < b.channels →
      |(buffer_convert_linear_to_srgb (buffer_convert_srgb_to_linear b)).data y x c -
        b.data y x c| ≤ 1 / 100000 := by
  intro y x c hy hx hc
  by_cases hcc : c < min 3 b.channels
  · obtain ⟨g0, g1⟩ := hb y x c hy hx hcc
    simp only [buffer_convert_linear_to_srgb, buffer_convert_srgb_to_linear]
    rw [if_pos hcc, if_pos hcc]
    exact roundtrip_component _ g0 g1
  · simp only [buffer_convert_linear_to_srgb, buffer_convert_srgb_to_linear]
    rw [if_neg hcc, if_neg hcc, sub_self, abs_zero]
    norm_num

/-- Witness for C9 at the red channel of the constant half-gray
buffer. -/
theorem C9_roundtrip_witness :
    |(buffer_convert_linear_to_srgb
        (buffer_convert_srgb_to_linear exHalfGray)).data 0 0 0 -
      exHalfGray.data 0 0 0| ≤ 1 / 100000 :=
  C9_roundtrip exHalfGray (by
    intro y x c _ _ _
    refine ⟨by norm_num [exHalfGray], by norm_num [exHalfGray]⟩)
    0 0 0 (by decide) (by decide) (by decide)

end PixelBuf
